import Mathlib

/-!
Verification development for the NLP task-orchestration service
(FastAPI application: task service, batch coordinator, cache service,
RAG context provider, webhook dispatcher).

The definitions below are a shallow embedding of the Python source:

* `app/models/database.py`   — record shapes (`Task`, `BatchJob`, `Webhook`)
* `app/services/task_service.py`    — `TaskService`
* `app/services/webhook_service.py` — `WebhookService`
* `app/services/cache_service.py`   — `CacheService`
* `app/services/rag_service.py`     — `RAGService.get_relevant_context`
* `app/core/config.py`       — the `Settings` constants used by the services

Python dynamic behaviour that the control flow of the services depends on
is modelled explicitly: attribute access on ORM records raises
`AttributeError` when the record class declares no such column, the
SQLAlchemy declarative constructor raises `TypeError` on an unknown
keyword argument, `json.dumps` raises `TypeError` on an ORM instance,
and a reference to a name that was never imported raises `NameError`.
External collaborators (the inference provider, the similarity index,
HTTP delivery of webhooks) are modelled as explicit oracle arguments.
-/

namespace NlpPipeline

/-- Task and batch-job status strings (`app/schemas.py`, `TaskStatus`). -/
inductive TaskStatus where
  | pending
  | processing
  | completed
  | failed
  | cancelled
deriving DecidableEq, Repr

/-- Terminal statuses: no automatic transition leaves them (spec section 4.1). -/
def TaskStatus.isTerminal : TaskStatus → Bool
  | .completed => true
  | .failed => true
  | .cancelled => true
  | _ => false

/-- The Python exceptions that drive control flow in the services. -/
inductive PyExn where
  | attributeError (msg : String)
  | typeError (msg : String)
  | valueError (msg : String)
  | keyError (msg : String)
  | nameError (msg : String)
deriving DecidableEq, Repr

/-- Python `str(e)` on an exception: the message carried by the exception.
(Python prints quotes around some fragments; the quotes are immaterial and
omitted from the modelled messages.) -/
def pyExnMessage : PyExn → String
  | .attributeError m => m
  | .typeError m => m
  | .valueError m => m
  | .keyError m => m
  | .nameError m => m

/-- Python values as they travel through the services: the JSON-like values
(str, int, bool, None, list, dict) plus `ormObject`, marking a SQLAlchemy ORM
instance (such as the `Task` row that `_process_task` hands to
`cache_service.set`).  An ORM instance is not JSON-serializable; which row it
is never matters, because `json.dumps` rejects it before inspecting it. -/
inductive PyVal where
  | str (s : String)
  | int (n : Int)
  | bool (b : Bool)
  | none
  | list (xs : List PyVal)
  | dict (xs : List (String × PyVal))
  | ormObject
deriving Repr

/-- Python truthiness of a value (`if cached_result:`, `if context:`, ...). -/
def pyTruthy : PyVal → Bool
  | .str s => s ≠ ""
  | .int n => n ≠ 0
  | .bool b => b
  | .none => false
  | .list xs => !xs.isEmpty
  | .dict xs => !xs.isEmpty
  | .ormObject => true

/-- Python `d.get(key, default)` on a dict value.  The services only call it
on dict parameters; on a non-dict the default is returned (the call sites
below never reach that case). -/
def pyDictGet (v : PyVal) (key : String) (dflt : PyVal) : PyVal :=
  match v with
  | .dict xs =>
    match xs.find? (fun kv => kv.fst == key) with
    | some kv => kv.snd
    | Option.none => dflt
  | _ => dflt

/-- Python `d[key]` on a dict value: raises `KeyError` when absent (the
missing-parameter failure mode of the task handlers). -/
def pyDictGetStrict (v : PyVal) (key : String) : Except PyExn PyVal :=
  match v with
  | .dict xs =>
    match xs.find? (fun kv => kv.fst == key) with
    | some kv => .ok kv.snd
    | Option.none => .error (.keyError key)
  | _ => .error (.typeError "value is not subscriptable")

mutual

/-- Python `json.dumps` succeeds exactly on JSON-like values; a SQLAlchemy ORM
instance raises `TypeError` (`Object of type Task is not JSON serializable`).
`cache_service.set` catches that and returns `False` without writing. -/
def jsonSerializable : PyVal → Bool
  | .str _ => true
  | .int _ => true
  | .bool _ => true
  | .none => true
  | .list xs => jsonSerializableList xs
  | .dict xs => jsonSerializableDict xs
  | .ormObject => false

/-- All elements of a Python list are JSON-serializable. -/
def jsonSerializableList : List PyVal → Bool
  | [] => true
  | x :: xs => jsonSerializable x && jsonSerializableList xs

/-- All values of a Python dict are JSON-serializable. -/
def jsonSerializableDict : List (String × PyVal) → Bool
  | [] => true
  | kv :: xs => jsonSerializable kv.snd && jsonSerializableDict xs

end

/-- Stand-in for `hashlib.sha256(text.encode()).hexdigest()`
(`TaskService._generate_input_hash`, task_service.py line 28): a deterministic
function of the text.  No theorem depends on its concrete values, only on
which string is fed to it. -/
def sha256Hex (s : String) : String := "sha256-" ++ s

/-- `TaskService._generate_input_hash(text)` (task_service.py lines 26-28):
the hash is computed over the input text alone. -/
def generateInputHash (text : String) : String := sha256Hex text

/-- The fingerprint `create_task` computes for a submission
(task_service.py line 39: `input_hash = self._generate_input_hash(input_text)`).
The task type and the parameters are in scope at the call site but are not
passed to the hash. -/
def submitFingerprint (_task_type : String) (input_text : String)
    (_parameters : PyVal) : String :=
  generateInputHash input_text

/-- The cache key `create_task` uses (task_service.py line 40:
`cache_key = f"{task_type}:{input_hash}"`). -/
def taskCacheKey (task_type input_text : String) : String :=
  task_type ++ ":" ++ generateInputHash input_text

/-- Unary encoding backing the fresh-identifier generator: only its
injectivity is used. -/
def natTag (n : Nat) : String := String.mk (List.replicate n 'x')

/-- Model of `uuid.uuid4()` (database.py `generate_uuid`): a fresh identifier
per allocation, drawn from a counter.  The concrete shape of the string is
irrelevant; only freshness (injectivity in the counter) is used. -/
def mkUuid (n : Nat) : String := "id-" ++ natTag n

/-- Model of `secrets.token_urlsafe(32)` (`WebhookService._generate_secret`):
an opaque server-generated string. -/
def mkSecret (n : Nat) : String := "whsec-" ++ natTag n

/-- Settings (`app/core/config.py`). -/
def MAX_WEBHOOK_FAILURES : Nat := 3

/-- `Settings.CACHE_ENABLED` (config.py line 63). -/
def CACHE_ENABLED : Bool := true

/-- `Settings.CACHE_TTL` in seconds (config.py line 62). -/
def CACHE_TTL : Nat := 3600

/-- `WebhookService.__init__` (webhook_service.py line 14): `max_retries = 3`. -/
def webhookMaxRetries : Nat := 3

/-- `WebhookService.__init__` (webhook_service.py line 15): `retry_delay = 5`. -/
def webhookRetryDelay : Nat := 5

/-- The `webhooks` table row (database.py lines 67-83).  `events` is the JSON
list of event names the subscriber registered for. -/
structure Webhook where
  id : String
  url : String
  events : List String
  description : Option String
  secret : String
  is_active : Bool
  failure_count : Nat
  last_triggered : Option Nat
  last_status : Option Nat
deriving DecidableEq, Repr

/-- Outcome of one HTTP delivery attempt (the `client.post` +
`raise_for_status` pair in `send_notification`), as decided by the network
and the receiving server:

* `success s` — response with a non-error status `s`; `raise_for_status`
  passes;
* `httpStatusError s` — response with an error status `s`;
  `raise_for_status` raises `httpx.HTTPStatusError`, which carries the
  response;
* `transportError` — `httpx` raised a transport-level error
  (`httpx.RequestError`, e.g. timeout); no response is attached to it;
* `otherError` — an exception that is not an `httpx.HTTPError` (for
  example `json` serialization of the payload failing inside `client.post`).
-/
inductive AttemptOutcome where
  | success (status : Nat)
  | httpStatusError (status : Nat)
  | transportError
  | otherError
deriving DecidableEq, Repr

/-- What `send_notification` hands back to its caller: Python `True`,
Python `False`, or an exception propagating out of the coroutine. -/
inductive NotifyOutcome where
  | ok
  | failed
  | exn (e : PyExn)
deriving DecidableEq, Repr

/-- webhook_service.py line 96 refers to `asyncio.sleep`, but the module
never imports `asyncio`; evaluating the name raises `NameError`. -/
def asyncioNameError : PyExn := .nameError "name asyncio is not defined"

/-- webhook_service.py line 72 evaluates `e.response` on the caught
`httpx.HTTPError`; a transport-level error carries no `response` attribute,
so the attribute access itself raises `AttributeError` inside the handler
(`getattr` only guards the `status_code` lookup, not `e.response`). -/
def responseAttributeError : PyExn :=
  .attributeError "HTTPError object has no attribute response"

/-- The retry loop of `send_notification` (webhook_service.py lines 41-98),
on the webhook record already fetched and checked active.  Arguments:
`att` gives the outcome of each attempt by index, `now` the current clock,
`remaining` the loop iterations left, `idx` the current value of `attempt`.
Returns the Python result, the webhook row as committed to the database,
and the number of delivery attempts actually performed.

Per iteration, following the source: on success the row records
`last_triggered`/`last_status` and resets `failure_count`, and the call
returns `True`.  On `httpx.HTTPStatusError` the row increments
`failure_count` and records the status; if the count has reached
`MAX_WEBHOOK_FAILURES` the row is deactivated and the call returns `False`.
On a transport error the handler itself raises `AttributeError` at
`e.response` before committing, so the increment is lost with the session.
On a non-`httpx` exception the increment is committed with no deactivation
check.  An iteration that falls through to the bottom of the loop body with
attempts remaining reaches `await asyncio.sleep(...)`, which raises
`NameError` because `asyncio` was never imported. -/
def runAttempts (att : Nat → AttemptOutcome) (now : Nat) :
    Nat → Nat → Webhook → NotifyOutcome × Webhook × Nat
  | 0, _, w => (.failed, w, 0)
  | remaining + 1, idx, w =>
    match att idx with
    | .success s =>
      (.ok, { w with last_triggered := some now, last_status := some s,
                     failure_count := 0 }, 1)
    | .httpStatusError s =>
      let w1 := { w with failure_count := w.failure_count + 1,
                         last_status := some s }
      if MAX_WEBHOOK_FAILURES ≤ w1.failure_count then
        (.failed, { w1 with is_active := false }, 1)
      else if idx < webhookMaxRetries - 1 then
        (.exn asyncioNameError, w1, 1)
      else
        let r := runAttempts att now remaining (idx + 1) w1
        (r.fst, r.snd.fst, r.snd.snd + 1)
    | .transportError =>
      (.exn responseAttributeError, w, 1)
    | .otherError =>
      let w1 := { w with failure_count := w.failure_count + 1 }
      if idx < webhookMaxRetries - 1 then
        (.exn asyncioNameError, w1, 1)
      else
        let r := runAttempts att now remaining (idx + 1) w1
        (r.fst, r.snd.fst, r.snd.snd + 1)

/-- Replace the first webhook row with the given id (the row
`send_notification` fetched and mutates through the session). -/
def replaceWebhook : List Webhook → String → Webhook → List Webhook
  | [], _, _ => []
  | w :: ws, wid, w' =>
    if w.id == wid then w' :: ws else w :: replaceWebhook ws wid w'

/-- Result record of a `send_notification` call: the Python return value (or
escaped exception), the webhook table as left in the database, and how many
delivery attempts were performed. -/
structure NotifyResultState where
  result : NotifyOutcome
  webhooks : List Webhook
  attemptsMade : Nat
deriving DecidableEq, Repr

/-- `WebhookService.send_notification(db, webhook_id, payload)`
(webhook_service.py lines 18-98).  The webhook is fetched by id; an unknown
or inactive webhook returns `False` with no delivery attempt.  Otherwise the
headers (user agent, webhook id, HMAC signature over the payload — lines
34-39, all computed without touching the record) are built and the retry
loop runs.  The payload reaches the wire only inside the POST abstracted by
`att`; nothing in the function reads the webhook's `events` list. -/
def sendNotification (webhooks : List Webhook) (webhook_id : String)
    (_payload : PyVal) (att : Nat → AttemptOutcome) (now : Nat) :
    NotifyResultState :=
  match webhooks.find? (fun w => w.id == webhook_id) with
  | Option.none => ⟨.failed, webhooks, 0⟩
  | some w =>
    if !w.is_active then ⟨.failed, webhooks, 0⟩
    else
      let r := runAttempts att now webhookMaxRetries 0 w
      ⟨r.fst, replaceWebhook webhooks webhook_id r.snd.fst, r.snd.snd⟩

/-- The `tasks` table row (database.py lines 11-31).  The columns are exactly
those declared there: in particular the model declares NO `parameters` column
(and `create_task` never passes one), which is why the attribute access
`task.parameters` in `_process_task` raises.  `updated_at` is bookkeeping
noise and is omitted; timestamps are modelled as natural clock values and
`processing_time` as whole seconds. -/
structure Task where
  id : String
  task_type : String
  status : TaskStatus
  input_text : String
  input_hash : String
  result : Option PyVal
  error : Option String
  created_at : Nat
  completed_at : Option Nat
  processing_time : Option Nat
  batch_job_id : Option String
deriving Repr

/-- The `batch_jobs` table row (database.py lines 33-52).  The model declares
NO `webhook_url` column, which is why `BatchJob(..., webhook_url=...)` in
`create_batch_job` raises `TypeError` and why `batch_job.webhook_url` in
`_process_batch_job` / `_process_task` raises `AttributeError`. -/
structure BatchJob where
  id : String
  status : TaskStatus
  total_tasks : Nat
  completed_tasks : Nat
  failed_tasks : Nat
  results : Option PyVal
  error : Option String
  created_at : Nat
  completed_at : Option Nat
  processing_time : Option Nat
deriving Repr

/-- task_service.py line 78 (`task.parameters.get(...)`) and line 89
(`handler(task.input_text, task.parameters, context)`): the `Task` model
declares no `parameters` column and `create_task` never assigns one, so the
attribute access raises `AttributeError`. -/
def taskParametersAttrError : PyExn :=
  .attributeError "Task object has no attribute parameters"

/-- Python attribute access `task.parameters`: always raises, see
`taskParametersAttrError`. -/
def taskParameters (_ : Task) : Except PyExn PyVal :=
  .error taskParametersAttrError

/-- task_service.py lines 107/125/260/278 (`batch_job.webhook_url`): the
`BatchJob` model declares no `webhook_url` column, so the attribute access
raises `AttributeError`. -/
def batchJobWebhookUrlAttrError : PyExn :=
  .attributeError "BatchJob object has no attribute webhook_url"

/-- task_service.py lines 198-202: `BatchJob(status=..., total_tasks=...,
webhook_url=webhook_url)`.  The SQLAlchemy declarative constructor rejects a
keyword that is not a mapped attribute, so constructing the job raises
`TypeError` before anything is added to the session (regardless of whether
`webhook_url` is `None`). -/
def batchJobConstructorTypeError : PyExn :=
  .typeError "webhook_url is an invalid keyword argument for BatchJob"

/-- One match returned by the similarity index, as consumed by
`RAGService.get_relevant_context` (rag_service.py lines 88-95, 120-125):
an id, a relevance score and the `metadata["text"]` fragment.  Scores are
modelled in hundredths (the configured threshold 0.7 becomes 70) to stay in
exact arithmetic. -/
structure RagMatch where
  id : String
  score : Nat
  text : String
deriving DecidableEq, Repr

/-- `Settings.RAG_SCORE_THRESHOLD = 0.7` (config.py line 59), in hundredths. -/
def ragScoreThresholdHundredths : Nat := 70

/-- The similarity-index oracle: either the raw matches the external index
returns for the query, or an error raised while embedding/querying
(`search_similar` re-raises those). -/
def RagOracle : Type := Except Unit (List RagMatch)

/-- `RAGService.search_similar` (rag_service.py lines 70-101), with the
external call abstracted by the oracle: keeps the matches whose score
reaches the threshold, in the order the index returned them; a provider
error propagates. -/
def searchSimilar (oracle : RagOracle) : Except Unit (List RagMatch) :=
  match oracle with
  | .error _ => .error ()
  | .ok ms => .ok (ms.filter (fun m => ragScoreThresholdHundredths ≤ m.score))

/-- The fragment-selection loop of `get_relevant_context` (rag_service.py
lines 117-125): walk the matches in order, keeping a running total of
fragment lengths; stop at the first fragment whose inclusion would push the
total past `maxLen`.  Fragments are included whole or not at all. -/
def chooseFragments (maxLen : Nat) : List RagMatch → Nat → List String
  | [], _ => []
  | m :: ms, cur =>
    if maxLen < cur + m.text.length then []
    else m.text :: chooseFragments maxLen ms (cur + m.text.length)

/-- Python `"\n".join(context)` (rag_service.py line 127): the fragments
joined with a newline between adjacent fragments; the separators are not
counted by the loop above. -/
def joinContext : List String → String
  | [] => ""
  | [t] => t
  | t :: ts => t ++ "\n" ++ joinContext ts

/-- `RAGService.get_relevant_context(query, max_length)` (rag_service.py
lines 103-131).  Any exception (from embedding or the index) is caught and
yields `none`; an empty match list yields `none`; otherwise the joined
selection is returned (possibly the empty string when even the first
fragment overflows). -/
def getRelevantContext (oracle : RagOracle) (maxLen : Nat) : Option String :=
  match searchSimilar oracle with
  | .error _ => Option.none
  | .ok ms =>
    if ms.isEmpty then Option.none
    else some (joinContext (chooseFragments maxLen ms 0))

/-- The whole system state: the three database tables, the Redis cache and
the fresh-id counter; `now` is the clock and `gatewayCalls` counts how many
times the inference gateway (`ultrasafe_client`) was invoked. -/
structure SysState where
  tasks : List Task
  jobs : List BatchJob
  webhooks : List Webhook
  cache : List (String × PyVal)
  nextId : Nat
  now : Nat
  gatewayCalls : Nat
deriving Repr

/-- The empty database at process start. -/
def initState : SysState :=
  { tasks := [], jobs := [], webhooks := [], cache := [], nextId := 0,
    now := 0, gatewayCalls := 0 }

/-- `db.query(Task).filter(Task.id == task_id).first()`. -/
def findTask (st : SysState) (task_id : String) : Option Task :=
  st.tasks.find? (fun t => t.id == task_id)

/-- `db.query(BatchJob).filter(BatchJob.id == job_id).first()`. -/
def findJob (st : SysState) (job_id : String) : Option BatchJob :=
  st.jobs.find? (fun j => j.id == job_id)

/-- Commit a mutated task row: replace the first row carrying its id. -/
def replaceTask : List Task → Task → List Task
  | [], _ => []
  | t :: ts, t' => if t.id == t'.id then t' :: ts else t :: replaceTask ts t'

/-- Commit a mutated task row into the state. -/
def updateTask (st : SysState) (t : Task) : SysState :=
  { st with tasks := replaceTask st.tasks t }

/-- Commit a mutated batch-job row: replace the first row carrying its id. -/
def replaceJob : List BatchJob → BatchJob → List BatchJob
  | [], _ => []
  | j :: js, j' => if j.id == j'.id then j' :: js else j :: replaceJob js j'

/-- Commit a mutated batch-job row into the state. -/
def updateJob (st : SysState) (j : BatchJob) : SysState :=
  { st with jobs := replaceJob st.jobs j }

/-- `CacheService.get(key)` (cache_service.py lines 30-39): a Redis lookup;
the stored JSON string deserializes back to the stored value, so the cache
is modelled as storing the value directly. -/
def cacheGet (cache : List (String × PyVal)) (key : String) : Option PyVal :=
  match cache.find? (fun kv => kv.fst == key) with
  | some kv => some kv.snd
  | Option.none => Option.none

/-- `CacheService.set(key, value, ttl)` (cache_service.py lines 41-57):
`json.dumps(value)` is attempted first; on `TypeError` (as for an ORM
instance) the exception is caught, nothing is written and `False` is
returned.  On success the serialized value is stored under the key. -/
def cacheSet (st : SysState) (key : String) (value : PyVal) : SysState × Bool :=
  if jsonSerializable value then
    ({ st with cache := (key, value) :: st.cache.filter (fun kv => kv.fst ≠ key) },
     true)
  else (st, false)

/-- The inference-gateway oracle: the outcome of one
`ultrasafe_client._make_request(POST, endpoint, data)` call — either the
JSON response or the exception that escapes after the client's own internal
retries (ultrasafe_client.py lines 20-57). -/
def InfOracle : Type := String → PyVal → Except PyExn PyVal

/-- One invocation of the inference gateway: consults the oracle and counts
the invocation (the count backs the idempotence analysis). -/
def gatewayCall (inf : InfOracle) (st : SysState) (endpoint : String)
    (data : PyVal) : Except PyExn PyVal × SysState :=
  (inf endpoint data, { st with gatewayCalls := st.gatewayCalls + 1 })

/-- Request-body assembly shared by the four `ultrasafe_client` operations
(e.g. lines 66-71): the kind-specific fields, plus `context` when the
context string is truthy (`if context:`). -/
def mkRequestData (fields : List (String × PyVal)) (context : Option String) :
    PyVal :=
  match context with
  | some c => if c ≠ "" then .dict (fields ++ [("context", .str c)])
              else .dict fields
  | Option.none => .dict fields

/-- The handler dispatch of `_process_task` (task_service.py lines 85-89 and
136-185): pick the handler for the task type (`ValueError` on an unknown
type), read the required kind-specific parameter (`KeyError` when missing)
and call the matching `ultrasafe_client` operation. -/
def taskHandlerRun (inf : InfOracle) (st : SysState) (task_type text : String)
    (params : PyVal) (context : Option String) :
    Except PyExn PyVal × SysState :=
  match task_type with
  | "classification" =>
    match pyDictGetStrict params "categories" with
    | .error e => (.error e, st)
    | .ok cats =>
      gatewayCall inf st "classify"
        (mkRequestData [("text", .str text), ("categories", cats)] context)
  | "entity_extraction" =>
    match pyDictGetStrict params "entity_types" with
    | .error e => (.error e, st)
    | .ok tys =>
      gatewayCall inf st "extract-entities"
        (mkRequestData [("text", .str text), ("entity_types", tys)] context)
  | "summarization" =>
    match pyDictGetStrict params "max_length" with
    | .error e => (.error e, st)
    | .ok ml =>
      gatewayCall inf st "summarize"
        (mkRequestData [("text", .str text), ("max_length", ml)] context)
  | "sentiment_analysis" =>
    gatewayCall inf st "analyze-sentiment"
      (mkRequestData [("text", .str text)] context)
  | _ => (.error (.valueError ("Unknown task type: " ++ task_type)), st)

/-- An integer parameter value as a length (call sites only produce ints). -/
def pyToNat : PyVal → Nat
  | .int n => n.toNat
  | _ => 0

/-- State of the `try` block of `_process_task` when it finishes or raises:
the database state, the in-memory task row at that point, and the exception
when one was raised. -/
structure TryResult where
  st : SysState
  task : Task
  exn : Option PyExn

/-- The `try` block of `_process_task` (task_service.py lines 71-116), on the
fetched row `t0`.  The row first moves to `processing` and is committed.
The next statement reads `task.parameters`, which raises `AttributeError`
(see `taskParameters`), so the remainder — context fetch, handler dispatch,
result/cache/webhook handling — is unreachable; it is translated below it
nonetheless, following the source line by line. -/
def processTaskTry (rag : RagOracle) (inf : InfOracle) (st0 : SysState)
    (t0 : Task) : TryResult :=
  let t1 := { t0 with status := .processing }
  let st1 := updateTask st0 t1
  match taskParameters t1 with
  | .error e => ⟨st1, t1, some e⟩
  | .ok params =>
    let context : Option String :=
      if pyTruthy (pyDictGet params "use_rag" (.bool false)) then
        getRelevantContext rag
          (pyToNat (pyDictGet params "context_length" (.int 1000)))
      else Option.none
    match taskHandlerRun inf st1 t1.task_type t1.input_text params context with
    | (.error e, st2) => ⟨st2, t1, some e⟩
    | (.ok result, st2) =>
      let t2 := { t1 with status := .completed, result := some result,
                          completed_at := some st2.now,
                          processing_time := some (st2.now - t1.created_at) }
      let st3 := updateTask st2 t2
      let st4 := if CACHE_ENABLED then
                   (cacheSet st3 (t2.task_type ++ ":" ++ t2.input_hash)
                     .ormObject).fst
                 else st3
      match t2.batch_job_id with
      | Option.none => ⟨st4, t2, Option.none⟩
      | some jid =>
        match findJob st4 jid with
        | Option.none => ⟨st4, t2, Option.none⟩
        | some _ => ⟨st4, t2, some batchJobWebhookUrlAttrError⟩

/-- `TaskService._process_task(db, task_id)` (task_service.py lines 64-134).
A missing row is logged and ignored.  Otherwise the `try` block runs; on an
exception the row is marked `failed` with the message as `error` (the
`result` field is left as it stood) and committed, after which the handler
itself evaluates `task.batch_job and task.batch_job.webhook_url` — when the
task belongs to an existing batch job, the `webhook_url` attribute access
raises `AttributeError` out of the whole coroutine. -/
def processTask (rag : RagOracle) (inf : InfOracle) (st : SysState)
    (task_id : String) : SysState × Option PyExn :=
  match findTask st task_id with
  | Option.none => (st, Option.none)
  | some t0 =>
    let r := processTaskTry rag inf st t0
    match r.exn with
    | Option.none => (r.st, Option.none)
    | some e =>
      let t2 := { r.task with status := .failed,
                              error := some (pyExnMessage e) }
      let st2 := updateTask r.st t2
      (st2,
        match t2.batch_job_id with
        | Option.none => Option.none
        | some jid =>
          match findJob st2 jid with
          | Option.none => Option.none
          | some _ => some batchJobWebhookUrlAttrError)

/-- What `create_task` hands back: the cached value on a truthy cache hit,
the created task row's id, or an exception escaping `_process_task`. -/
inductive CreateTaskResult where
  | cached (v : PyVal)
  | created (task_id : String)
  | raised (e : PyExn)

/-- `TaskService.create_task(db, task_type, input_text, parameters)`
(task_service.py lines 30-62).  The fingerprint is the hash of the text
alone; the cache key prefixes the task type.  On a truthy cache hit the
cached value is returned with no new row.  Otherwise a `pending` row is
created — the `parameters` argument is not stored anywhere — committed, and
`_process_task` runs to completion before returning. -/
def createTask (task_type input_text : String) (_parameters : PyVal)
    (rag : RagOracle) (inf : InfOracle) (st : SysState) :
    CreateTaskResult × SysState :=
  let input_hash := generateInputHash input_text
  let cache_key := task_type ++ ":" ++ input_hash
  let hit : Option PyVal :=
    if CACHE_ENABLED then
      match cacheGet st.cache cache_key with
      | some v => if pyTruthy v then some v else Option.none
      | Option.none => Option.none
    else Option.none
  match hit with
  | some v => (.cached v, st)
  | Option.none =>
    let tid := mkUuid st.nextId
    let task : Task :=
      { id := tid, task_type := task_type, status := .pending,
        input_text := input_text, input_hash := input_hash,
        result := Option.none, error := Option.none, created_at := st.now,
        completed_at := Option.none, processing_time := Option.none,
        batch_job_id := Option.none }
    let st1 := { st with tasks := st.tasks ++ [task], nextId := st.nextId + 1 }
    let pr := processTask rag inf st1 tid
    ((match pr.snd with
      | Option.none => .created tid
      | some e => .raised e), pr.fst)

/-- `TaskService.create_batch_job(db, tasks, webhook_url)` (task_service.py
lines 191-223).  The first statement constructs
`BatchJob(status=..., total_tasks=..., webhook_url=webhook_url)`; the model
has no `webhook_url` column, so the declarative constructor raises
`TypeError` before `db.add` — no job row, no child rows, no processing.
The remainder of the function (persisting children and awaiting
`_process_batch_job`) is unreachable. -/
def createBatchJob (_tasksData : List PyVal) (_webhook_url : Option String)
    (st : SysState) : SysState × Option PyExn :=
  (st, some batchJobConstructorTypeError)

/-- Value stored in a batch `results` map for a failed child
(task_service.py line 250): `{"error": task.error}`. -/
def errorEntry (err : Option String) : PyVal :=
  .dict [("error", match err with | some s => .str s | Option.none => .none)]

/-- The child loop of `_process_batch_job` (task_service.py lines 241-250):
drive each child through `_process_task`; an exception escaping
`_process_task` aborts the loop at that child (the remaining siblings are
never processed).  Otherwise the re-read child's outcome increments the
job's counters and records its result or error. -/
def processBatchChildren (rag : RagOracle) (inf : InfOracle) :
    List Task → SysState → BatchJob → List (String × PyVal) →
    SysState × BatchJob × List (String × PyVal) × Option PyExn
  | [], st, bj, results => (st, bj, results, Option.none)
  | c :: cs, st, bj, results =>
    match processTask rag inf st c.id with
    | (st1, some e) => (st1, bj, results, some e)
    | (st1, Option.none) =>
      match findTask st1 c.id with
      | Option.none =>
        (st1, bj, results,
         some (.attributeError "NoneType object has no attribute status"))
      | some t =>
        if t.status == .completed then
          let bj1 := { bj with completed_tasks := bj.completed_tasks + 1 }
          processBatchChildren rag inf cs (updateJob st1 bj1) bj1
            (results ++ [(t.id, t.result.getD .none)])
        else
          let bj1 := { bj with failed_tasks := bj.failed_tasks + 1 }
          processBatchChildren rag inf cs (updateJob st1 bj1) bj1
            (results ++ [(t.id, errorEntry t.error)])

/-- The `except` block of `_process_batch_job` (task_service.py lines
271-287): mark the job `failed` with the message, commit, then evaluate
`batch_job.webhook_url` — which raises `AttributeError` out of the
function. -/
def processBatchJobExcept (st : SysState) (j : BatchJob) (e : PyExn) :
    SysState × Option PyExn :=
  let j1 := { j with status := .failed, error := some (pyExnMessage e) }
  (updateJob st j1, some batchJobWebhookUrlAttrError)

/-- `TaskService._process_batch_job(db, job_id)` (task_service.py lines
225-287).  A missing job is logged and ignored.  Otherwise the job moves to
`processing`, the children are driven through `_process_task` (the loop
aborts at the first escaping exception), and on loop completion the job is
marked `completed` with the results map — after which the guard
`if batch_job.webhook_url:` raises `AttributeError` (no such column), the
`except` block overwrites the status with `failed`, and its own
`batch_job.webhook_url` guard raises `AttributeError` out of the function.
Every path through the function thus leaves the job `failed`. -/
def processBatchJob (rag : RagOracle) (inf : InfOracle) (st : SysState)
    (job_id : String) : SysState × Option PyExn :=
  match findJob st job_id with
  | Option.none => (st, Option.none)
  | some j0 =>
    let j1 := { j0 with status := .processing }
    let st1 := updateJob st j1
    let children := st1.tasks.filter (fun t => t.batch_job_id == some job_id)
    match processBatchChildren rag inf children st1 j1 [] with
    | (st2, j2, results, Option.none) =>
      let j3 := { j2 with status := .completed, results := some (.dict results),
                          completed_at := some st2.now,
                          processing_time := some (st2.now - j2.created_at) }
      let st3 := updateJob st2 j3
      processBatchJobExcept st3 j3 batchJobWebhookUrlAttrError
    | (st2, j2, _, some e) => processBatchJobExcept st2 j2 e

/-- `TaskService.cancel_batch_job(db, job_id)` (task_service.py lines
293-312): `ValueError` when the job is unknown; otherwise the job is set to
`cancelled` unconditionally and every child task still `pending` is set to
`cancelled` (children in any other status are left untouched). -/
def cancelBatchJob (st : SysState) (job_id : String) :
    SysState × Option PyExn :=
  match findJob st job_id with
  | Option.none => (st, some (.valueError "Batch job not found"))
  | some j =>
    let st1 := updateJob st { j with status := .cancelled }
    let st2 := { st1 with tasks := st1.tasks.map (fun t =>
      if t.batch_job_id == some job_id && t.status == .pending then
        { t with status := .cancelled }
      else t) }
    (st2, Option.none)

/-- `WebhookService.validate_url` (webhook_service.py lines 114-120): the
URL scheme must be http or https. -/
def validateUrl (url : String) : Bool :=
  url.startsWith "http://" || url.startsWith "https://"

/-- `WebhookService.create_webhook` (webhook_service.py lines 122-143):
`ValueError` on an invalid URL; otherwise a new active webhook row with a
fresh id and server-generated secret, zero failures. -/
def createWebhook (url : String) (events : List String)
    (description : Option String) (st : SysState) : SysState × Option PyExn :=
  if !validateUrl url then (st, some (.valueError "Invalid webhook URL"))
  else
    let w : Webhook :=
      { id := mkUuid st.nextId, url := url, events := events,
        description := description, secret := mkSecret st.nextId,
        is_active := true, failure_count := 0,
        last_triggered := Option.none, last_status := Option.none }
    ({ st with webhooks := st.webhooks ++ [w], nextId := st.nextId + 1 },
     Option.none)

/-- The operations of the system as wired in the repository: the service
calls reachable from the API endpoints and the worker.  The worker entries
(`app/worker.py`) call the async service coroutines without `await`; the
coroutine object is created and never executed, so those operations leave
the state unchanged. -/
inductive Op where
  | createTask (task_type input_text : String) (parameters : PyVal)
      (rag : RagOracle) (inf : InfOracle)
  | createBatchJob (tasksData : List PyVal) (webhook_url : Option String)
  | cancelBatchJob (job_id : String)
  | createWebhook (url : String) (events : List String)
      (description : Option String)
  | notify (webhook_id : String) (payload : PyVal)
      (att : Nat → AttemptOutcome)
  | workerProcessNlpTask (task_id : String)
  | workerProcessBatchJob (job_id : String)
  | workerSendWebhook (webhook_id : String) (payload : PyVal)

/-- Effect of one operation on the system state. -/
def applyOp (st : SysState) : Op → SysState
  | .createTask ty text p rag inf => (createTask ty text p rag inf st).snd
  | .createBatchJob td url => (createBatchJob td url st).fst
  | .cancelBatchJob jid => (cancelBatchJob st jid).fst
  | .createWebhook url evs desc => (createWebhook url evs desc st).fst
  | .notify wid p att =>
    { st with webhooks := (sendNotification st.webhooks wid p att st.now).webhooks }
  | .workerProcessNlpTask _ => st
  | .workerProcessBatchJob _ => st
  | .workerSendWebhook _ _ => st

/-- Run a sequence of operations. -/
def run (st : SysState) : List Op → SysState
  | [] => st
  | op :: ops => run (applyOp st op) ops

/-- Status of the task with the given id, as an observer reading the
database sees it. -/
def taskStatus (st : SysState) (task_id : String) : Option TaskStatus :=
  (findTask st task_id).map (fun t => t.status)

/-- Classifies a delivery-attempt outcome as an HTTP error response
(`httpx.HTTPStatusError`), the only failure kind for which
`send_notification` runs its deactivation check. -/
def AttemptOutcome.isHttpStatusError : AttemptOutcome → Bool
  | .httpStatusError _ => true
  | _ => false

/-- Total length of a list of text fragments (what the selection loop of
`get_relevant_context` accumulates in `current_length`). -/
def sumLens : List String → Nat
  | [] => 0
  | t :: ts => t.length + sumLens ts

/-- First category name inside a parameters dict (a projection used to
exhibit that two parameter payloads differ). -/
def catHead (p : PyVal) : Option String :=
  match pyDictGet p "categories" (.list []) with
  | .list (.str s :: _) => some s
  | _ => Option.none

/-- Row-level statement of the result/error discipline claimed for tasks:
`result` and `error` never both present, and both absent in the
non-terminal statuses. -/
def resultErrorOk (t : Task) : Prop :=
  (t.result.isSome && t.error.isSome) = false
  ∧ ((t.status = .pending ∨ t.status = .processing) →
      t.result = Option.none ∧ t.error = Option.none)

/-- Auxiliary row invariant carried through the trace induction: the code
never assigns `result` at all, and `error` is only ever assigned together
with the `failed` status. -/
def TaskRowInv (t : Task) : Prop :=
  t.result = Option.none ∧ (t.error.isSome = true → t.status = .failed)

/-- Every task row satisfies the auxiliary row invariant. -/
def TasksInv (st : SysState) : Prop := ∀ t ∈ st.tasks, TaskRowInv t

/-- Every task row's id was drawn from the fresh-id counter at some earlier
value — the freshness discipline of `uuid4` allocation. -/
def IdsBounded (st : SysState) : Prop :=
  ∀ t ∈ st.tasks, ∃ k, k < st.nextId ∧ t.id = mkUuid k

/-- A registered webhook row used in the concrete checks below. -/
def webhookFixture : Webhook :=
  { id := "id-", url := "http://example.com/hook",
    events := ["task.completed"], description := Option.none,
    secret := "whsec-", is_active := true, failure_count := 0,
    last_triggered := Option.none, last_status := Option.none }

/-- The webhook row as `send_notification` leaves it when a webhook two
failures short of none is hit by an HTTP error response: third failure,
deactivated. -/
def webhookFixtureDeactivated : Webhook :=
  { webhookFixture with failure_count := 3, last_status := some 500,
                        is_active := false }

/-- Classification parameters as built by the `/classify` endpoint. -/
def paramsPosNeg : PyVal :=
  .dict [("categories", .list [.str "positive", .str "negative"]),
         ("use_rag", .bool false), ("context_length", .int 1000)]

/-- A second parameters payload differing from `paramsPosNeg` only in the
category list. -/
def paramsSpamHam : PyVal :=
  .dict [("categories", .list [.str "spam", .str "ham"]),
         ("use_rag", .bool false), ("context_length", .int 1000)]

/-- A similarity-index oracle standing for a provider error. -/
def ragStub : RagOracle := Except.error ()

/-- An inference stub that always answers the spec's classification
example. -/
def infStub : InfOracle :=
  fun _ _ => .ok (.dict [("category", .str "positive"),
                         ("confidence", .int 95)])

/-- An inference stub that errors exactly on the request whose text is the
second batch child's, succeeding on every other request (the spec's
scenario of one failing sibling). -/
def infStubFailSecond : InfOracle :=
  fun _ data =>
    match pyDictGet data "text" (.str "") with
    | .str s =>
      if s == "t2" then .error (.valueError "stub inference failure")
      else .ok (.dict [("category", .str "positive")])
    | _ => .ok (.dict [("category", .str "positive")])

/-- The spec's example submission as an operation. -/
def submitOpFixture : Op :=
  .createTask "classification" "I love this product" paramsPosNeg
    ragStub infStub

/-- The task row left in the database by `submitOpFixture` from the empty
state: marked `failed` by the `AttributeError` on `task.parameters`. -/
def taskRowFixture : Task :=
  { id := "id-", task_type := "classification", status := .failed,
    input_text := "I love this product",
    input_hash := "sha256-I love this product", result := Option.none,
    error := some "Task object has no attribute parameters",
    created_at := 0, completed_at := Option.none,
    processing_time := Option.none, batch_job_id := Option.none }

/-- A pending batch job with three children, as `create_batch_job` intends
to produce (constructed directly, since the constructor raises). -/
def batchJobFixture : BatchJob :=
  { id := "job-1", status := .pending, total_tasks := 3,
    completed_tasks := 0, failed_tasks := 0, results := Option.none,
    error := Option.none, created_at := 0, completed_at := Option.none,
    processing_time := Option.none }

/-- A pending child task of `batchJobFixture`. -/
def batchChild (n : Nat) (txt : String) : Task :=
  { id := mkUuid n, task_type := "classification", status := .pending,
    input_text := txt, input_hash := generateInputHash txt,
    result := Option.none, error := Option.none, created_at := 0,
    completed_at := Option.none, processing_time := Option.none,
    batch_job_id := some "job-1" }

/-- Database state holding `batchJobFixture` with three pending children. -/
def batchStateFixture : SysState :=
  { tasks := [batchChild 0 "t1", batchChild 1 "t2", batchChild 2 "t3"],
    jobs := [batchJobFixture], webhooks := [], cache := [], nextId := 5,
    now := 9, gatewayCalls := 0 }

/-! ## Webhook dispatcher lemmas -/

theorem runAttempts_id (att : Nat → AttemptOutcome) (now : Nat) :
    ∀ (n idx : Nat) (w : Webhook),
      ((runAttempts att now n idx w).snd.fst).id = w.id := by
  intro n
  induction n with
  | zero => intro idx w; rfl
  | succ m ih =>
    intro idx w
    simp only [runAttempts]
    cases att idx with
    | success s => rfl
    | httpStatusError s =>
      by_cases h1 : MAX_WEBHOOK_FAILURES ≤ w.failure_count + 1
      · simp [h1]
      · by_cases h2 : idx < webhookMaxRetries - 1
        · simp [h1, h2]
        · simp [h1, h2, ih]
    | transportError => rfl
    | otherError =>
      by_cases h2 : idx < webhookMaxRetries - 1
      · simp [h2]
      · simp [h2, ih]

theorem runAttempts_made_pos (att : Nat → AttemptOutcome) (now : Nat) :
    ∀ (n idx : Nat) (w : Webhook), 0 < n →
      1 ≤ (runAttempts att now n idx w).snd.snd := by
  intro n
  cases n with
  | zero => intro idx w h; omega
  | succ m =>
    intro idx w _
    simp only [runAttempts]
    cases att idx with
    | success s => simp
    | httpStatusError s =>
      by_cases h1 : MAX_WEBHOOK_FAILURES ≤ w.failure_count + 1
      · simp [h1]
      · by_cases h2 : idx < webhookMaxRetries - 1
        · simp [h1, h2]
        · simp only [h1, h2, if_false, if_neg, not_false_eq_true]
          omega
    | transportError => simp
    | otherError =>
      by_cases h2 : idx < webhookMaxRetries - 1
      · simp [h2]
      · simp only [h2, if_false, if_neg, not_false_eq_true]
        omega

theorem runAttempts_events_irrelevant (att : Nat → AttemptOutcome)
    (now : Nat) :
    ∀ (n idx : Nat) (w : Webhook) (e : List String),
      (runAttempts att now n idx { w with events := e }).fst
      = (runAttempts att now n idx w).fst := by
  intro n
  induction n with
  | zero => intro idx w e; rfl
  | succ m ih =>
    intro idx w e
    simp only [runAttempts]
    cases att idx with
    | success s => rfl
    | httpStatusError s =>
      by_cases h1 : MAX_WEBHOOK_FAILURES ≤ w.failure_count + 1
      · simp [h1]
      · by_cases h2 : idx < webhookMaxRetries - 1
        · simp [h1, h2]
        · simp only [h1, h2, if_false, if_neg, not_false_eq_true]
          exact ih (idx + 1)
            { w with failure_count := w.failure_count + 1,
                     last_status := some s } e
    | transportError => rfl
    | otherError =>
      by_cases h2 : idx < webhookMaxRetries - 1
      · simp [h2]
      · simp only [h2, if_false, if_neg, not_false_eq_true]
        exact ih (idx + 1)
          { w with failure_count := w.failure_count + 1 } e

theorem find?_replaceWebhook (wid : String) (w' : Webhook)
    (hid : (w'.id == wid) = true) :
    ∀ (ws : List Webhook) (w : Webhook),
      ws.find? (fun x => x.id == wid) = some w →
      (replaceWebhook ws wid w').find? (fun x => x.id == wid) = some w' := by
  intro ws
  induction ws with
  | nil => intro w h; simp [List.find?] at h
  | cons w0 rest ih =>
    intro w h
    by_cases h0 : (w0.id == wid) = true
    · simp only [replaceWebhook, h0, if_pos]
      simp [List.find?, hid]
    · simp only [List.find?, h0] at h
      simp only [replaceWebhook, h0, if_neg, Bool.false_eq_true,
        not_false_eq_true]
      simp only [List.find?, h0]
      exact ih w h

theorem sendNotification_active (ws : List Webhook) (wid : String)
    (p : PyVal) (att : Nat → AttemptOutcome) (now : Nat) (w : Webhook)
    (hfind : ws.find? (fun x => x.id == wid) = some w)
    (hact : w.is_active = true) :
    sendNotification ws wid p att now
    = ⟨(runAttempts att now webhookMaxRetries 0 w).fst,
       replaceWebhook ws wid (runAttempts att now webhookMaxRetries 0 w).snd.fst,
       (runAttempts att now webhookMaxRetries 0 w).snd.snd⟩ := by
  simp [sendNotification, hfind, hact]

/-- C5 (code_bug evidence): on a known, active webhook whose delivery
attempt fails with an HTTP 500, `send_notification` does not wait and retry
up to `max_retries` times and return a typed failure — it makes a single
attempt and then raises `NameError` (webhook_service.py line 96 refers to
`asyncio`, which the module never imports), letting the exception escape
the call. -/
theorem notify_raises_instead_of_typed_failure :
    webhookFixture.is_active = true
    ∧ (sendNotification [webhookFixture] "id-"
        (.dict [("event", .str "task.completed")])
        (fun _ => .httpStatusError 500) 0).result = .exn asyncioNameError
    ∧ (sendNotification [webhookFixture] "id-"
        (.dict [("event", .str "task.completed")])
        (fun _ => .httpStatusError 500) 0).attemptsMade = 1 := by
  refine ⟨rfl, ?_, rfl⟩
  rfl

/-- C2 (counterexample): a single delivery attempt failing with a
non-`httpx` exception on a webhook two failures below the threshold leaves
`failure_count = 3 = MAX_WEBHOOK_FAILURES` with `is_active` still true —
the `except Exception` branch of `send_notification` (webhook_service.py
lines 85-93) increments the count without the deactivation check, so the
claimed invariant `failure_count ≥ MAX ⇒ is_active = false` fails after
this attempt. -/
theorem webhook_invariant_counterexample :
    (sendNotification [{ webhookFixture with failure_count := 2 }] "id-"
      (.dict []) (fun _ => .otherError) 0).webhooks
      = [{ webhookFixture with failure_count := 3 }]
    ∧ (sendNotification [{ webhookFixture with failure_count := 2 }] "id-"
        (.dict []) (fun _ => .otherError) 0).attemptsMade = 1
    ∧ MAX_WEBHOOK_FAILURES ≤ 3
    ∧ ({ webhookFixture with failure_count := 3 }).is_active = true := by
  exact ⟨rfl, rfl, by decide, rfl⟩

/-- C2 (amended): the deactivation invariant holds for the failure kind the
code actually checks.  For every notify call: a known but inactive webhook
gets no delivery attempt and the state is unchanged; and on a known active
webhook whose first attempt fails with an HTTP error response, the stored
row afterwards satisfies `failure_count ≥ MAX_WEBHOOK_FAILURES →
is_active = false` (the check runs and deactivation aborts the remaining
retries).  Non-HTTP failures bypass the check (see the counterexample). -/
theorem webhook_deactivation_http_only :
    ∀ (ws : List Webhook) (wid : String) (p : PyVal)
      (att : Nat → AttemptOutcome) (now : Nat) (w : Webhook),
      ws.find? (fun x => x.id == wid) = some w →
      (w.is_active = false →
        sendNotification ws wid p att now = ⟨.failed, ws, 0⟩)
      ∧ (w.is_active = true → (att 0).isHttpStatusError = true →
          ∀ w2, (sendNotification ws wid p att now).webhooks.find?
              (fun x => x.id == wid) = some w2 →
            MAX_WEBHOOK_FAILURES ≤ w2.failure_count → w2.is_active = false) := by
  intro ws wid p att now w hfind
  have hwid : (w.id == wid) = true := by
    have h := List.find?_some hfind
    simpa using h
  constructor
  · intro hina
    simp [sendNotification, hfind, hina]
  · intro hact hhttp w2 hfind2 hcount
    obtain ⟨s, hs⟩ : ∃ s, att 0 = .httpStatusError s := by
      cases h0 : att 0 with
      | success s => rw [h0] at hhttp; simp [AttemptOutcome.isHttpStatusError] at hhttp
      | httpStatusError s => exact ⟨s, rfl⟩
      | transportError => rw [h0] at hhttp; simp [AttemptOutcome.isHttpStatusError] at hhttp
      | otherError => rw [h0] at hhttp; simp [AttemptOutcome.isHttpStatusError] at hhttp
    rw [sendNotification_active ws wid p att now w hfind hact] at hfind2
    have h3 : webhookMaxRetries = 2 + 1 := rfl
    rw [h3] at hfind2
    simp only [runAttempts, hs] at hfind2
    by_cases h1 : MAX_WEBHOOK_FAILURES ≤ w.failure_count + 1
    · simp only [h1, if_pos] at hfind2
      have := find?_replaceWebhook wid
        { w with failure_count := w.failure_count + 1, last_status := some s,
                 is_active := false } hwid ws w hfind
      rw [this] at hfind2
      have hw2 := (Option.some.injEq _ _).mp hfind2
      rw [← hw2]
    · simp only [h1, if_neg, not_false_eq_true, if_false] at hfind2
      have h2 : (0 : Nat) < webhookMaxRetries - 1 := by decide
      simp only [h2, if_pos] at hfind2
      have := find?_replaceWebhook wid
        { w with failure_count := w.failure_count + 1, last_status := some s }
        hwid ws w hfind
      rw [this] at hfind2
      have hw2 := (Option.some.injEq _ _).mp hfind2
      rw [← hw2] at hcount
      simp at hcount
      omega

/-- C2 (witness): a webhook with two prior failures, hit by an HTTP 500 —
the theorem applies and the stored row is indeed deactivated at the
threshold. -/
theorem webhook_deactivation_http_only_witness :
    ([{ webhookFixture with failure_count := 2 }].find?
        (fun x => x.id == "id-") = some { webhookFixture with failure_count := 2 })
    ∧ ({ webhookFixture with failure_count := 2 }).is_active = true
    ∧ ((sendNotification [{ webhookFixture with failure_count := 2 }] "id-"
          (.dict []) (fun _ => .httpStatusError 500) 0).webhooks.find?
          (fun x => x.id == "id-") = some webhookFixtureDeactivated)
    ∧ MAX_WEBHOOK_FAILURES ≤ webhookFixtureDeactivated.failure_count
    ∧ webhookFixtureDeactivated.is_active = false := by
  refine ⟨by decide, rfl, by decide, by decide, ?_⟩
  exact (webhook_deactivation_http_only
      [{ webhookFixture with failure_count := 2 }] "id-" (.dict [])
      (fun _ => .httpStatusError 500) 0
      { webhookFixture with failure_count := 2 } (by decide)).2
    rfl rfl webhookFixtureDeactivated (by decide) (by decide)

/-- C10 (confirmed): `send_notification` never consults the webhook's
`events` subscription list: for a known active webhook it performs at least
one delivery attempt whatever the payload and whatever the `events` list
holds, and its returned result is unchanged under replacing the `events`
list. -/
theorem notify_attempts_regardless_of_events :
    ∀ (w : Webhook) (e1 e2 : List String) (p : PyVal)
      (att : Nat → AttemptOutcome) (now : Nat),
      w.is_active = true →
      1 ≤ (sendNotification [{ w with events := e1 }] w.id p att now).attemptsMade
      ∧ (sendNotification [{ w with events := e1 }] w.id p att now).result
        = (sendNotification [{ w with events := e2 }] w.id p att now).result := by
  intro w e1 e2 p att now hact
  have hself : (w.id == w.id) = true := by simp
  have hfind : ∀ e : List String,
      [{ w with events := e }].find? (fun x => x.id == w.id)
      = some { w with events := e } := by
    intro e
    simp [List.find?]
  have hacte : ∀ e : List String, ({ w with events := e }).is_active = true := by
    intro e; simpa using hact
  constructor
  · rw [sendNotification_active [{ w with events := e1 }] w.id p att now
      { w with events := e1 } (hfind e1) (hacte e1)]
    exact runAttempts_made_pos att now webhookMaxRetries 0
      { w with events := e1 } (by decide)
  · rw [sendNotification_active [{ w with events := e1 }] w.id p att now
      { w with events := e1 } (hfind e1) (hacte e1),
      sendNotification_active [{ w with events := e2 }] w.id p att now
      { w with events := e2 } (hfind e2) (hacte e2)]
    show (runAttempts att now webhookMaxRetries 0 { w with events := e1 }).fst
      = (runAttempts att now webhookMaxRetries 0 { w with events := e2 }).fst
    rw [runAttempts_events_irrelevant att now webhookMaxRetries 0 w e1,
        runAttempts_events_irrelevant att now webhookMaxRetries 0 w e2]

/-- C10 (witness): the theorem applied to the registered fixture webhook
with two different subscription lists. -/
theorem notify_attempts_regardless_of_events_witness :
    webhookFixture.is_active = true
    ∧ (1 ≤ (sendNotification [{ webhookFixture with events := [] }]
          webhookFixture.id (.dict []) (fun _ => .success 200) 0).attemptsMade
       ∧ (sendNotification [{ webhookFixture with events := [] }]
            webhookFixture.id (.dict []) (fun _ => .success 200) 0).result
         = (sendNotification
              [{ webhookFixture with events := ["batch.completed"] }]
              webhookFixture.id (.dict []) (fun _ => .success 200) 0).result) :=
  ⟨rfl, notify_attempts_regardless_of_events webhookFixture []
    ["batch.completed"] (.dict []) (fun _ => .success 200) 0 rfl⟩

/-! ## Context-provider lemmas -/

theorem chooseFragments_sum (maxLen : Nat) :
    ∀ (ms : List RagMatch) (cur : Nat), cur ≤ maxLen →
      cur + sumLens (chooseFragments maxLen ms cur) ≤ maxLen := by
  intro ms
  induction ms with
  | nil => intro cur h; simpa [chooseFragments, sumLens]
  | cons m rest ih =>
    intro cur h
    by_cases hov : maxLen < cur + m.text.length
    · simp [chooseFragments, hov, sumLens, h]
    · simp only [chooseFragments, hov, if_neg, not_false_eq_true, if_false,
        sumLens]
      have := ih (cur + m.text.length) (by omega)
      omega

theorem chooseFragments_take (maxLen : Nat) :
    ∀ (ms : List RagMatch) (cur : Nat),
      chooseFragments maxLen ms cur
      = (ms.map (fun m => m.text)).take (chooseFragments maxLen ms cur).length := by
  intro ms
  induction ms with
  | nil => intro cur; rfl
  | cons m rest ih =>
    intro cur
    by_cases hov : maxLen < cur + m.text.length
    · simp [chooseFragments, hov]
    · simp only [chooseFragments, hov, if_neg, not_false_eq_true, if_false,
        List.map_cons, List.length_cons, List.take_succ_cons, List.cons.injEq,
        true_and]
      exact ih (cur + m.text.length)

theorem joinContext_length :
    ∀ ts : List String,
      (joinContext ts).length ≤ sumLens ts + (ts.length - 1) := by
  intro ts
  induction ts with
  | nil => simp [joinContext, sumLens]
  | cons t rest ih =>
    cases rest with
    | nil => simp [joinContext, sumLens]
    | cons t2 rest2 =>
      have hnl : ("\n" : String).length = 1 := rfl
      simp only [joinContext, sumLens, String.length_append, hnl,
        List.length_cons] at ih ⊢
      omega

/-- C9 (counterexample): two whole fragments of length 1 with `max_length = 2`
pass the selection check, yet the returned string joins them with a newline
the loop never counted, so its length is 3 > `max_length`. -/
theorem context_exceeds_max_length_counterexample :
    getRelevantContext (.ok [⟨"m1", 90, "a"⟩, ⟨"m2", 80, "b"⟩]) 2
      = some "a\nb"
    ∧ 2 < ("a\nb" : String).length := ⟨rfl, by decide⟩

/-- C9 (amended): `get_relevant_context` includes fragments whole, in the
order the (score-filtered) matches arrive, stopping before the first
fragment whose inclusion would push the running total past `max_length`;
the running total of fragment lengths never exceeds `max_length`, but the
returned string inserts one uncounted newline between adjacent fragments,
so its length is only bounded by `max_length` plus the number of included
fragments minus one. -/
theorem context_selection_amended :
    ∀ (oracle : RagOracle) (ms : List RagMatch) (maxLen : Nat),
      searchSimilar oracle = .ok ms →
      sumLens (chooseFragments maxLen ms 0) ≤ maxLen
      ∧ chooseFragments maxLen ms 0
        = (ms.map (fun m => m.text)).take (chooseFragments maxLen ms 0).length
      ∧ (ms.isEmpty = false →
          getRelevantContext oracle maxLen
          = some (joinContext (chooseFragments maxLen ms 0)))
      ∧ (joinContext (chooseFragments maxLen ms 0)).length
        ≤ maxLen + ((chooseFragments maxLen ms 0).length - 1) := by
  intro oracle ms maxLen hs
  refine ⟨?_, chooseFragments_take maxLen ms 0, ?_, ?_⟩
  · have := chooseFragments_sum maxLen ms 0 (Nat.zero_le _)
    omega
  · intro hne
    simp [getRelevantContext, hs, hne]
  · have h1 := joinContext_length (chooseFragments maxLen ms 0)
    have h2 := chooseFragments_sum maxLen ms 0 (Nat.zero_le _)
    omega

/-- C9 (witness): the amended theorem applied to the two-fragment
counterexample input. -/
theorem context_selection_amended_witness :
    searchSimilar (.ok [⟨"m1", 90, "a"⟩, ⟨"m2", 80, "b"⟩])
      = .ok [⟨"m1", 90, "a"⟩, ⟨"m2", 80, "b"⟩]
    ∧ (sumLens (chooseFragments 2 [⟨"m1", 90, "a"⟩, ⟨"m2", 80, "b"⟩] 0) ≤ 2
       ∧ chooseFragments 2 [⟨"m1", 90, "a"⟩, ⟨"m2", 80, "b"⟩] 0
         = ([⟨"m1", 90, "a"⟩, ⟨"m2", 80, "b"⟩].map
             (fun m : RagMatch => m.text)).take
             (chooseFragments 2 [⟨"m1", 90, "a"⟩, ⟨"m2", 80, "b"⟩] 0).length
       ∧ (([⟨"m1", 90, "a"⟩, ⟨"m2", 80, "b"⟩] : List RagMatch).isEmpty = false →
           getRelevantContext (.ok [⟨"m1", 90, "a"⟩, ⟨"m2", 80, "b"⟩]) 2
           = some (joinContext
               (chooseFragments 2 [⟨"m1", 90, "a"⟩, ⟨"m2", 80, "b"⟩] 0)))
       ∧ (joinContext (chooseFragments 2 [⟨"m1", 90, "a"⟩, ⟨"m2", 80, "b"⟩] 0)).length
         ≤ 2 + ((chooseFragments 2 [⟨"m1", 90, "a"⟩, ⟨"m2", 80, "b"⟩] 0).length - 1)) :=
  ⟨rfl, context_selection_amended (.ok [⟨"m1", 90, "a"⟩, ⟨"m2", 80, "b"⟩])
    [⟨"m1", 90, "a"⟩, ⟨"m2", 80, "b"⟩] 2 rfl⟩

/-! ## Fingerprint claims -/

/-- C8 (counterexample): the fingerprint `create_task` computes is the hash
of the input text alone, so two submissions that differ in their parameters
(and even in their task kind) — here different category lists — receive the
same fingerprint, with the hash applied to the identical string "hello"
both times (no hash collision involved).  Only the cache key separates
kinds, through its plain-text prefix. -/
theorem fingerprint_ignores_kind_and_parameters :
    submitFingerprint "classification" "hello" paramsPosNeg
      = submitFingerprint "classification" "hello" paramsSpamHam
    ∧ submitFingerprint "classification" "hello" paramsPosNeg
      = submitFingerprint "summarization" "hello" paramsSpamHam
    ∧ catHead paramsPosNeg = some "positive"
    ∧ catHead paramsSpamHam = some "spam"
    ∧ paramsPosNeg ≠ paramsSpamHam
    ∧ taskCacheKey "classification" "hello"
      ≠ taskCacheKey "summarization" "hello" := by
  refine ⟨rfl, rfl, rfl, rfl, ?_, ?_⟩
  · intro h
    exact absurd (congrArg catHead h) (by decide)
  · decide

/-- C8 (amended): the fingerprint is deterministic but computed over the
input text alone — SHA-256 of the text — ignoring both the task kind and
the parameters; the kind re-enters only as the plain prefix of the cache
key `f"{task_type}:{input_hash}"`. -/
theorem fingerprint_text_only :
    ∀ (ty1 ty2 text : String) (p1 p2 : PyVal),
      submitFingerprint ty1 text p1 = submitFingerprint ty2 text p2
      ∧ submitFingerprint ty1 text p1 = sha256Hex text
      ∧ taskCacheKey ty1 text = ty1 ++ ":" ++ submitFingerprint ty1 text p1 :=
  fun _ _ _ _ _ => ⟨rfl, rfl, rfl⟩

/-! ## Orchestration evaluation results -/

/-- C3 (code_bug evidence): submitting the identical classification request
twice with caching enabled yields two independent `failed` rows — every
`_process_task` run dies on the `task.parameters` attribute access — no
result, an untouched (empty) cache, and zero inference-gateway invocations;
the idempotent cache-hit path the spec describes is unreachable (and even a
completed task would not be cached, since `json.dumps` on the ORM row
raises `TypeError` inside `cache_service.set`). -/
theorem duplicate_submit_no_cache_eval :
    ((run initState [submitOpFixture, submitOpFixture]).tasks.map
        (fun t => t.status) = [.failed, .failed])
    ∧ ((run initState [submitOpFixture, submitOpFixture]).tasks.map
        (fun t => t.result) = [Option.none, Option.none])
    ∧ ((run initState [submitOpFixture, submitOpFixture]).tasks.map
        (fun t => t.error)
        = [some "Task object has no attribute parameters",
           some "Task object has no attribute parameters"])
    ∧ (run initState [submitOpFixture, submitOpFixture]).cache = []
    ∧ (run initState [submitOpFixture, submitOpFixture]).gatewayCalls = 0 :=
  ⟨rfl, rfl, rfl, rfl, rfl⟩

/-- C6 (code_bug evidence): `create_batch_job` raises `TypeError` at the
`BatchJob(...)` constructor call — the model has no `webhook_url` column —
so no batch job is ever persisted, let alone completed; the claimed
invariant quantifies over records the code cannot produce. -/
theorem batch_job_creation_raises :
    createBatchJob
      [.dict [("task_type", .str "classification"), ("text", .str "hi")]]
      (some "http://example.com/hook") initState
      = (initState, some batchJobConstructorTypeError)
    ∧ (createBatchJob
        [.dict [("task_type", .str "classification"), ("text", .str "hi")]]
        (some "http://example.com/hook") initState).fst.jobs = [] :=
  ⟨rfl, rfl⟩

/-- C7 (code_bug evidence): driving `_process_batch_job` over a
directly-constructed job with three pending children (the state
`create_batch_job` intends but cannot produce) and an inference stub that
fails only on child 2: the first child's `_process_task` raises
`AttributeError` out of the loop (after marking that child failed), the
siblings are left `pending` — aborted, never processed — the job ends
`failed` with counters 0/0 instead of `completed` with 2/1, no per-child
result is recorded, and inference is never reached. -/
theorem batch_sibling_abort_eval :
    (processBatchJob ragStub infStubFailSecond batchStateFixture "job-1").snd
      = some batchJobWebhookUrlAttrError
    ∧ ((processBatchJob ragStub infStubFailSecond batchStateFixture
        "job-1").fst.jobs.map (fun j => j.status)) = [.failed]
    ∧ ((processBatchJob ragStub infStubFailSecond batchStateFixture
        "job-1").fst.jobs.map
        (fun j => (j.completed_tasks, j.failed_tasks, j.results.isSome)))
      = [(0, 0, false)]
    ∧ ((processBatchJob ragStub infStubFailSecond batchStateFixture
        "job-1").fst.tasks.map (fun t => t.status))
      = [.failed, .pending, .pending]
    ∧ (processBatchJob ragStub infStubFailSecond batchStateFixture
        "job-1").fst.gatewayCalls = 0 :=
  ⟨rfl, rfl, rfl, rfl, rfl⟩

/-! ## Identifier freshness -/

theorem natTag_length (n : Nat) : (natTag n).length = n := by
  show (List.replicate n 'x').length = n
  simp

theorem mkUuid_length (n : Nat) : (mkUuid n).length = n + 3 := by
  have h3 : ("id-" : String).length = 3 := rfl
  simp [mkUuid, String.length_append, h3, natTag_length]
  omega

theorem mkUuid_inj {a b : Nat} (h : mkUuid a = mkUuid b) : a = b := by
  have := congrArg String.length h
  rw [mkUuid_length, mkUuid_length] at this
  omega

/-! ## Task-table lemmas -/

theorem findTask_id (st : SysState) (tid : String) (t : Task)
    (h : findTask st tid = some t) : t.id = tid := by
  simp only [findTask] at h
  have h2 := List.find?_some h
  simpa using h2

theorem find?_replaceTask_ne (tid : String) (tnew : Task)
    (hne : (tnew.id == tid) = false) :
    ∀ ts : List Task,
      (replaceTask ts tnew).find? (fun t => t.id == tid)
      = ts.find? (fun t => t.id == tid) := by
  intro ts
  induction ts with
  | nil => rfl
  | cons t rest ih =>
    simp only [replaceTask]
    by_cases h0 : (t.id == tnew.id) = true
    · rw [if_pos h0]
      have heq : t.id = tnew.id := by simpa using h0
      have ht : (t.id == tid) = false := by rw [heq]; exact hne
      simp [List.find?, hne, ht]
    · rw [if_neg h0]
      simp only [List.find?]
      cases hp : (t.id == tid) with
      | false => simpa [hp] using ih
      | true => simp [hp]

theorem mem_replaceTask (tnew : Task) :
    ∀ (ts : List Task) (t : Task),
      t ∈ replaceTask ts tnew → t ∈ ts ∨ t = tnew := by
  intro ts
  induction ts with
  | nil => intro t h; simp [replaceTask] at h
  | cons t0 rest ih =>
    intro t h
    simp only [replaceTask] at h
    by_cases h0 : (t0.id == tnew.id) = true
    · rw [if_pos h0] at h
      rcases List.mem_cons.mp h with h1 | h1
      · right; exact h1
      · left; exact List.mem_cons_of_mem _ h1
    · rw [if_neg h0] at h
      rcases List.mem_cons.mp h with h1 | h1
      · left; rw [h1]; exact List.mem_cons_self _ _
      · rcases ih t h1 with h2 | h2
        · left; exact List.mem_cons_of_mem _ h2
        · right; exact h2

theorem replaceTask_replaceTask (t1 t2 : Task) (hid : t2.id = t1.id) :
    ∀ ts : List Task,
      replaceTask (replaceTask ts t1) t2 = replaceTask ts t2 := by
  intro ts
  induction ts with
  | nil => rfl
  | cons t0 rest ih =>
    by_cases h0 : (t0.id == t1.id) = true
    · have heq : t0.id = t1.id := by simpa using h0
      have h1 : (t1.id == t2.id) = true := by simp [hid]
      have h0' : (t0.id == t2.id) = true := by simp [heq, hid]
      simp [replaceTask, h0, h1, h0']
    · have h0f : (t0.id == t1.id) = false := by simpa using h0
      have hne : t0.id ≠ t1.id := by simpa using h0f
      have h0'f : (t0.id == t2.id) = false := by
        refine beq_eq_false_iff_ne.mpr ?_
        rw [hid]; exact hne
      simp [replaceTask, h0f, h0'f, ih]

/-! ## The effect of `_process_task` on the state -/

theorem processTaskTry_eq (rag : RagOracle) (inf : InfOracle) (st : SysState)
    (t0 : Task) :
    processTaskTry rag inf st t0
    = ⟨updateTask st { t0 with status := .processing },
       { t0 with status := .processing }, some taskParametersAttrError⟩ := rfl

theorem processTask_shape (rag : RagOracle) (inf : InfOracle) (st : SysState)
    (pid : String) :
    (findTask st pid = Option.none ∧ (processTask rag inf st pid).fst = st)
    ∨ ∃ t0 t2 : Task, findTask st pid = some t0
        ∧ t2.id = t0.id ∧ t2.status = .failed ∧ t2.result = t0.result
        ∧ (processTask rag inf st pid).fst
          = { st with tasks := replaceTask st.tasks t2 } := by
  cases hf : findTask st pid with
  | none =>
    left
    refine ⟨rfl, ?_⟩
    simp [processTask, hf]
  | some t0 =>
    right
    refine ⟨t0,
      { t0 with status := .failed,
                error := some (pyExnMessage taskParametersAttrError) },
      rfl, rfl, rfl, rfl, ?_⟩
    have hcollapse := replaceTask_replaceTask
      { t0 with status := .processing }
      { t0 with status := .failed,
                error := some (pyExnMessage taskParametersAttrError) }
      rfl st.tasks
    simp only [processTask, hf, processTaskTry_eq, updateTask]
    simp [hcollapse]

theorem processTask_taskStatus_ne (rag : RagOracle) (inf : InfOracle)
    (st : SysState) (pid tid : String) (hne : pid ≠ tid) :
    taskStatus (processTask rag inf st pid).fst tid = taskStatus st tid := by
  rcases processTask_shape rag inf st pid with ⟨_, heq⟩ |
    ⟨t0, t2, hf, hid, _, _, heq⟩
  · rw [heq]
  · rw [heq]
    have h0 : t0.id = pid := findTask_id st pid t0 hf
    have hb : (t2.id == tid) = false := by
      rw [hid, h0]; exact beq_eq_false_iff_ne.mpr hne
    simp only [taskStatus, findTask]
    rw [find?_replaceTask_ne tid t2 hb st.tasks]

/-! ## Trace invariants -/

theorem find?_map_of_id (f : Task → Task) (hfid : ∀ t, (f t).id = t.id)
    (tid : String) :
    ∀ ts : List Task,
      (ts.map f).find? (fun t => t.id == tid)
      = (ts.find? (fun t => t.id == tid)).map f := by
  intro ts
  induction ts with
  | nil => rfl
  | cons t0 rest ih =>
    simp only [List.map_cons, List.find?, hfid t0]
    cases hp : (t0.id == tid) with
    | false => simpa [hp] using ih
    | true => simp [hp]

theorem createTask_taskStatus_ne (ty text : String) (p : PyVal)
    (rag : RagOracle) (inf : InfOracle) (st : SysState) (tid : String)
    (hneq : mkUuid st.nextId ≠ tid) :
    taskStatus (createTask ty text p rag inf st).snd tid
    = taskStatus st tid := by
  simp only [createTask]
  split
  · rfl
  · rw [processTask_taskStatus_ne rag inf _ (mkUuid st.nextId) tid hneq]
    simp only [taskStatus, findTask]
    rw [List.find?_append]
    cases hfind0 : st.tasks.find? (fun x => x.id == tid) with
    | some t' => simp [hfind0]
    | none =>
      have hb : (mkUuid st.nextId == tid) = false :=
        beq_eq_false_iff_ne.mpr hneq
      simp [hfind0, List.find?, hb]

theorem processTask_ids (rag : RagOracle) (inf : InfOracle) (st : SysState)
    (pid : String) (h : IdsBounded st) :
    IdsBounded (processTask rag inf st pid).fst := by
  rcases processTask_shape rag inf st pid with ⟨_, heq⟩ |
    ⟨t0, t2, hf, hid, _, _, heq⟩
  · rw [heq]; exact h
  · rw [heq]
    intro t ht
    rcases mem_replaceTask t2 st.tasks t ht with h1 | h1
    · exact h t h1
    · rcases h t0 (List.mem_of_find?_eq_some hf) with ⟨k, hk, hkid⟩
      exact ⟨k, hk, by rw [h1, hid, hkid]⟩

theorem processTask_rowInv (rag : RagOracle) (inf : InfOracle) (st : SysState)
    (pid : String) (h : TasksInv st) :
    TasksInv (processTask rag inf st pid).fst := by
  rcases processTask_shape rag inf st pid with ⟨_, heq⟩ |
    ⟨t0, t2, hf, hid, hstat, hres, heq⟩
  · rw [heq]; exact h
  · rw [heq]
    intro t ht
    rcases mem_replaceTask t2 st.tasks t ht with h1 | h1
    · exact h t h1
    · have ht0 := h t0 (List.mem_of_find?_eq_some hf)
      subst h1
      exact ⟨by rw [hres]; exact ht0.1, fun _ => hstat⟩

theorem applyOp_ids (st : SysState) (op : Op) (h : IdsBounded st) :
    IdsBounded (applyOp st op) := by
  cases op with
  | createTask ty text p rag inf =>
    show IdsBounded (createTask ty text p rag inf st).snd
    simp only [createTask]
    split
    · exact h
    · apply processTask_ids
      intro t ht
      rcases List.mem_append.mp ht with h1 | h1
      · rcases h t h1 with ⟨k, hk, hkid⟩
        exact ⟨k, by show k < st.nextId + 1; omega, hkid⟩
      · have h2 := List.mem_singleton.mp h1
        exact ⟨st.nextId, by show st.nextId < st.nextId + 1; omega, by rw [h2]⟩
  | createBatchJob td url => exact h
  | cancelBatchJob jid =>
    show IdsBounded (cancelBatchJob st jid).fst
    simp only [cancelBatchJob]
    split
    · exact h
    · intro t ht
      rcases List.mem_map.mp ht with ⟨t', ht', hmap⟩
      rcases h t' ht' with ⟨k, hk, hkid⟩
      refine ⟨k, hk, ?_⟩
      rw [← hmap]
      by_cases hc : (t'.batch_job_id == some jid
          && t'.status == TaskStatus.pending) = true
      · simp [hc, hkid]
      · simp [hc, hkid]
  | createWebhook url evs desc =>
    show IdsBounded (createWebhook url evs desc st).fst
    simp only [createWebhook]
    split
    · exact h
    · intro t ht
      rcases h t ht with ⟨k, hk, hkid⟩
      exact ⟨k, by show k < st.nextId + 1; omega, hkid⟩
  | notify wid p att => exact h
  | workerProcessNlpTask i => exact h
  | workerProcessBatchJob i => exact h
  | workerSendWebhook i p => exact h

theorem applyOp_rowInv (st : SysState) (op : Op) (h : TasksInv st) :
    TasksInv (applyOp st op) := by
  cases op with
  | createTask ty text p rag inf =>
    show TasksInv (createTask ty text p rag inf st).snd
    simp only [createTask]
    split
    · exact h
    · apply processTask_rowInv
      intro t ht
      rcases List.mem_append.mp ht with h1 | h1
      · exact h t h1
      · have h2 := List.mem_singleton.mp h1
        subst h2
        exact ⟨rfl, by intro hx; simp at hx⟩
  | createBatchJob td url => exact h
  | cancelBatchJob jid =>
    show TasksInv (cancelBatchJob st jid).fst
    simp only [cancelBatchJob]
    split
    · exact h
    · intro t ht
      rcases List.mem_map.mp ht with ⟨t', ht', hmap⟩
      have ht'inv := h t' ht'
      rw [← hmap]
      by_cases hc : (t'.batch_job_id == some jid
          && t'.status == TaskStatus.pending) = true
      · rw [if_pos hc]
        refine ⟨ht'inv.1, ?_⟩
        intro hsome
        have h2 := ht'inv.2 hsome
        have h3 : (t'.status == TaskStatus.pending) = true :=
          (Bool.and_eq_true _ _ |>.mp hc).2
        have h4 : t'.status = TaskStatus.pending := by simpa using h3
        rw [h2] at h4
        exact absurd h4 (by decide)
      · rw [if_neg hc]
        exact ht'inv
  | createWebhook url evs desc =>
    show TasksInv (createWebhook url evs desc st).fst
    simp only [createWebhook]
    split
    · exact h
    · exact h
  | notify wid p att => exact h
  | workerProcessNlpTask i => exact h
  | workerProcessBatchJob i => exact h
  | workerSendWebhook i p => exact h

theorem applyOp_terminal (st : SysState) (op : Op) (tid : String)
    (s : TaskStatus) (hids : IdsBounded st) (hterm : s.isTerminal = true)
    (hst : taskStatus st tid = some s) :
    taskStatus (applyOp st op) tid = some s := by
  obtain ⟨t, hft, hts⟩ : ∃ t, findTask st tid = some t ∧ t.status = s := by
    simp only [taskStatus] at hst
    cases hf : findTask st tid with
    | none => rw [hf] at hst; simp at hst
    | some t => rw [hf] at hst; exact ⟨t, rfl, by simpa using hst⟩
  cases op with
  | createTask ty text p rag inf =>
    have hneq : mkUuid st.nextId ≠ tid := by
      rcases hids t (List.mem_of_find?_eq_some hft) with ⟨k, hk, hkid⟩
      have htid : tid = mkUuid k := by
        rw [← hkid]
        exact (findTask_id st tid t hft).symm
      rw [htid]
      intro hcontra
      have := mkUuid_inj hcontra
      omega
    show taskStatus (createTask ty text p rag inf st).snd tid = some s
    rw [createTask_taskStatus_ne ty text p rag inf st tid hneq]
    exact hst
  | createBatchJob td url => exact hst
  | cancelBatchJob jid =>
    show taskStatus (cancelBatchJob st jid).fst tid = some s
    simp only [cancelBatchJob]
    split
    · exact hst
    · have hnp : (t.status == TaskStatus.pending) = false := by
        rw [hts]
        cases s with
        | completed => rfl
        | failed => rfl
        | cancelled => rfl
        | pending => simp [TaskStatus.isTerminal] at hterm
        | processing => simp [TaskStatus.isTerminal] at hterm
      have hfid : ∀ x : Task,
          ((fun x : Task => if x.batch_job_id == some jid
              && x.status == TaskStatus.pending then
            { x with status := TaskStatus.cancelled } else x) x).id = x.id := by
        intro x
        by_cases hc : (x.batch_job_id == some jid
            && x.status == TaskStatus.pending) = true
        · simp [hc]
        · simp [hc]
      have hsnp : s ≠ TaskStatus.pending := by
        intro hx
        rw [hx] at hterm
        simp [TaskStatus.isTerminal] at hterm
      simp only [taskStatus, findTask, updateJob]
      rw [find?_map_of_id _ hfid tid st.tasks]
      have hft' : st.tasks.find? (fun x => x.id == tid) = some t := hft
      rw [hft']
      simp [hnp, hts, hsnp]
  | createWebhook url evs desc =>
    show taskStatus (createWebhook url evs desc st).fst tid = some s
    simp only [createWebhook]
    split
    · exact hst
    · exact hst
  | notify wid p att => exact hst
  | workerProcessNlpTask i => exact hst
  | workerProcessBatchJob i => exact hst
  | workerSendWebhook i p => exact hst

theorem run_append (ops1 ops2 : List Op) :
    ∀ st : SysState, run st (ops1 ++ ops2) = run (run st ops1) ops2 := by
  induction ops1 with
  | nil => intro st; rfl
  | cons op rest ih =>
    intro st
    simp only [List.cons_append, run]
    exact ih _

theorem run_ids (ops : List Op) :
    ∀ st : SysState, IdsBounded st → IdsBounded (run st ops) := by
  induction ops with
  | nil => intro st h; exact h
  | cons op rest ih =>
    intro st h
    exact ih _ (applyOp_ids st op h)

theorem run_rowInv (ops : List Op) :
    ∀ st : SysState, TasksInv st → TasksInv (run st ops) := by
  induction ops with
  | nil => intro st h; exact h
  | cons op rest ih =>
    intro st h
    exact ih _ (applyOp_rowInv st op h)

theorem run_terminal (ops : List Op) (tid : String) (s : TaskStatus)
    (hterm : s.isTerminal = true) :
    ∀ st : SysState, IdsBounded st → taskStatus st tid = some s →
      taskStatus (run st ops) tid = some s := by
  induction ops with
  | nil => intro st _ h; exact h
  | cons op rest ih =>
    intro st hids h
    exact ih _ (applyOp_ids st op hids)
      (applyOp_terminal st op tid s hids hterm h)

/-- C1 (confirmed): along any sequence of system operations from the empty
initial state, a task that has reached a terminal status (`completed`,
`failed` or `cancelled`) holds that exact status at every later point: no
operation of the system — submission, batch creation, batch cancellation,
webhook registration, notification delivery, or the worker entry points —
transitions it to any other status. -/
theorem task_terminal_monotone :
    ∀ (ops1 ops2 : List Op) (tid : String) (s : TaskStatus),
      s.isTerminal = true →
      taskStatus (run initState ops1) tid = some s →
      taskStatus (run initState (ops1 ++ ops2)) tid = some s := by
  intro ops1 ops2 tid s hterm h1
  rw [run_append]
  have hids : IdsBounded (run initState ops1) := by
    apply run_ids
    intro t ht
    simp [initState] at ht
  exact run_terminal ops2 tid s hterm _ hids h1

/-- C1 (witness): the spec's example submission yields a task in the
terminal status `failed`; a later batch-cancellation call leaves it
unchanged. -/
theorem task_terminal_monotone_witness :
    TaskStatus.isTerminal .failed = true
    ∧ taskStatus (run initState [submitOpFixture]) "id-" = some .failed
    ∧ taskStatus (run initState ([submitOpFixture]
        ++ [.cancelBatchJob "missing"])) "id-" = some .failed :=
  ⟨rfl, rfl, task_terminal_monotone [submitOpFixture]
    [.cancelBatchJob "missing"] "id-" .failed rfl rfl⟩

/-- C4 (confirmed): in every state reachable by system operations from the
empty initial state, every task row has `result` and `error` never both
present, and both absent while its status is `pending` or `processing`.
(The code in fact never assigns `result` at all — every `_process_task` run
fails at the `task.parameters` access before the success path — and `error`
is only ever assigned together with the `failed` status.) -/
theorem result_error_exclusive :
    ∀ (ops : List Op) (t : Task),
      t ∈ (run initState ops).tasks → resultErrorOk t := by
  intro ops t ht
  have hinv : TasksInv (run initState ops) := by
    apply run_rowInv
    intro t' ht'
    simp [initState] at ht'
  obtain ⟨hres, herr⟩ := hinv t ht
  constructor
  · rw [hres]
    simp
  · intro hstat
    refine ⟨hres, ?_⟩
    cases he : t.error with
    | none => rfl
    | some msg =>
      have hfail : t.status = .failed := herr (by rw [he]; rfl)
      rcases hstat with h1 | h1 <;> rw [h1] at hfail <;> simp at hfail

/-- C4 (witness): the row produced by the example submission is in a
reachable state and satisfies the result/error discipline. -/
theorem result_error_exclusive_witness :
    taskRowFixture ∈ (run initState [submitOpFixture]).tasks
    ∧ resultErrorOk taskRowFixture := by
  have hlist : (run initState [submitOpFixture]).tasks = [taskRowFixture] := rfl
  have hmem : taskRowFixture ∈ (run initState [submitOpFixture]).tasks := by
    rw [hlist]
    exact List.mem_singleton.mpr rfl
  exact ⟨hmem, result_error_exclusive [submitOpFixture] taskRowFixture hmem⟩

end NlpPipeline
